import Mathlib

/-!
Verification of the DW HDMI QP transmitter driver
(`drivers/gpu/drm/bridge/synopsys/dw-hdmi-qp.c` together with
`dw-hdmi-common.h`).

The development shallowly embeds the side-channel (I2C/DDC) transaction
engine, the AVI infoframe assembly, the scrambler/SCDC configuration of
the setup sequence, and the power-update state machine.  Hardware
register accesses are recorded as an event trace; the interrupt-driven
byte-completion protocol is abstracted as a sink oracle that, for each
byte-level operation, either acknowledges, negative-acknowledges, or
never signals completion (timeout).
-/

namespace DwHdmiQp

/-! ## Constants from `dw-hdmi-common.h` -/

def DDC_CI_ADDR : Nat := 0x37

def DDC_SEGMENT_ADDR : Nat := 0x30

def SCDC_MIN_SOURCE_VERSION : Nat := 0x1

def HDMI14_MAX_TMDSCLK : Nat := 340000000

/-- Modelled from the spec: the canonical sink DDC address to which the
segment-pointer alias address is rewritten when a one-byte segment
selector is detected.  The constant `DDC_ADDR` (0x50) is defined in an
I2C framework header that is not among the analyzed sources. -/
def DDC_ADDR : Nat := 0x50

/-! ## Register offsets and bit masks

Modelled from the spec: the register map header (`dw-hdmi-qp.h`) giving
the exact numeric offsets and bit positions is not among the analyzed
sources; the spec treats them as "symbolic offsets" forming a fixed
hardware contract.  Distinct word-aligned offsets and distinct bits
stand in for them; no claim depends on the numeric values, only on the
identity of the symbols. -/

def I2CM_CONTROL0 : Nat := 0x00

def I2CM_INTERFACE_CONTROL0 : Nat := 0x04

def I2CM_INTERFACE_CONTROL1 : Nat := 0x08

def I2CM_INTERFACE_WRDATA_0_3 : Nat := 0x0c

def I2CM_INTERFACE_RDDATA_0_3 : Nat := 0x10

def MAINUNIT_1_INT_MASK_N : Nat := 0x14

def MAINUNIT_1_INT_CLEAR : Nat := 0x18

def PKT_AVI_CONTENTS0 : Nat := 0x1c

def PKT_AVI_CONTENTS1 : Nat := 0x20

def PKT_DRMI_CONTENTS0 : Nat := 0x40

def PKT_DRMI_CONTENTS1 : Nat := 0x44

def PKTSCHED_PKT_CONFIG1 : Nat := 0x60

def PKTSCHED_PKT_EN : Nat := 0x64

def SCRAMB_CONFIG0 : Nat := 0x68

def LINK_CONFIG0 : Nat := 0x6c

def HDCP2LOGIC_CONFIG0 : Nat := 0x70

def I2CM_WR_MASK : Nat := 0x3

def I2CM_FM_READ : Nat := 0x1

def I2CM_FM_WRITE : Nat := 0x2

def I2CM_ADDR : Nat := 0xfff000

def I2CM_SLVADDR : Nat := 0xfe0

def I2CM_SEG_ADDR : Nat := 0x7f

def I2CM_SEG_PTR : Nat := 0xff00

def I2CM_OP_DONE_MASK_N : Nat := 0x10

def I2CM_NACK_RCVD_MASK_N : Nat := 0x40

def PKTSCHED_AVI_FIELDRATE : Nat := 0x100

def PKTSCHED_DRMI_FIELDRATE : Nat := 0x200

def PKTSCHED_AVI_TX_EN : Nat := 0x4

def PKTSCHED_GCP_TX_EN : Nat := 0x8

def PKTSCHED_DRMI_TX_EN : Nat := 0x20

def OPMODE_DVI : Nat := 0x2

def HDCP2_BYPASS : Nat := 0x4

/-! ## Error codes (Linux errno values, returned negated) -/

def EOPNOTSUPP : Int := 95

def EAGAIN : Int := 11

def EIO : Int := 5

/-! ## Event traces

Every externally visible effect of the embedded functions is recorded
in order: register writes, read-modify-write register updates (argument
order `data`, `mask`, `reg` mirroring `dw_hdmi_qp_mod`), the transaction
mutex, PHY operations and SCDC sink requests. -/

inductive Ev where
  | write (reg val : Nat)
  | mod (data mask reg : Nat)
  | lock
  | unlock
  | phyInit
  | phyDisable
  | scdcReadVersion
  | scdcWriteSourceVersion (v : Nat)
  | scdcHighTmds (enable : Bool)
  | scdcScrambling (enable : Bool)
  deriving DecidableEq, Repr

/-! ## Side-channel transaction engine -/

/-- Per-byte outcome of the interrupt-driven completion protocol:
the waiter either times out (`wait_for_completion_timeout` returns 0),
observes `I2CM_NACK_RCVD_IRQ` in the latched status snapshot, or
completes successfully. -/
inductive ByteResp where
  | timeout
  | nack
  | ack
  deriving DecidableEq, Repr

/-- The simulated sink / completion oracle: per byte-level operation it
determines the outcome, and for acknowledged reads the data byte
latched in `I2CM_INTERFACE_RDDATA_0_3`. -/
structure Sink where
  rdResp : Nat → ByteResp
  rdData : Nat → Nat
  wrResp : Nat → Nat → ByteResp

/-- The mutable fields of `struct dw_hdmi_i2c` used by the engine
(`slave_reg` is a `u8`). -/
structure I2cState where
  slave_reg : Nat
  is_regaddr : Bool
  is_segment : Bool
  deriving DecidableEq, Repr

/-- The byte loop of `dw_hdmi_qp_i2c_read` (lines 75-100): for each byte
program the auto-incrementing register address and the read command,
wait for completion, and on success capture the received byte.
Returns (result, final `slave_reg`, bytes read, event trace). -/
def readLoop (s : Sink) (reg : Nat) : Nat → Int × Nat × List Nat × List Ev
  | 0 => (0, reg, [], [])
  | n + 1 =>
    let evs := [Ev.mod (reg <<< 12) I2CM_ADDR I2CM_INTERFACE_CONTROL0,
                Ev.mod I2CM_FM_READ I2CM_WR_MASK I2CM_INTERFACE_CONTROL0]
    match s.rdResp reg with
    | .timeout => (-EAGAIN, (reg + 1) % 256, [], evs ++ [Ev.write I2CM_CONTROL0 0x01])
    | .nack => (- EIO, (reg + 1) % 256, [], evs ++ [Ev.write I2CM_CONTROL0 0x01])
    | .ack =>
      let b := s.rdData reg % 256
      let rest := readLoop s ((reg + 1) % 256) n
      (rest.1, rest.2.1, b :: rest.2.2.1,
       evs ++ [Ev.mod 0 I2CM_WR_MASK I2CM_INTERFACE_CONTROL0] ++ rest.2.2.2)

/-- `dw_hdmi_qp_i2c_read` (lines 63-105): a read with no register
address explicitly set first defaults `slave_reg` to 0; `is_segment`
is cleared only when the whole loop succeeds. -/
def dw_hdmi_qp_i2c_read (s : Sink) (st : I2cState) (length : Nat) :
    Int × I2cState × List Nat × List Ev :=
  let st := if !st.is_regaddr then { st with slave_reg := 0, is_regaddr := true } else st
  let r := readLoop s st.slave_reg length
  (r.1,
   { st with slave_reg := r.2.1,
             is_segment := if r.1 = 0 then false else st.is_segment },
   r.2.2.1, r.2.2.2)

/-- The byte loop of `dw_hdmi_qp_i2c_write` (lines 121-145): for each
byte write the data register, program the auto-incrementing register
address and the write command, and wait for completion.
Returns (result, final `slave_reg`, event trace). -/
def writeLoop (s : Sink) (reg : Nat) : List Nat → Int × Nat × List Ev
  | [] => (0, reg, [])
  | b :: rest =>
    let evs := [Ev.write I2CM_INTERFACE_WRDATA_0_3 b,
                Ev.mod (reg <<< 12) I2CM_ADDR I2CM_INTERFACE_CONTROL0,
                Ev.mod I2CM_FM_WRITE I2CM_WR_MASK I2CM_INTERFACE_CONTROL0]
    match s.wrResp reg b with
    | .timeout => (-EAGAIN, (reg + 1) % 256, evs ++ [Ev.write I2CM_CONTROL0 0x01])
    | .nack => (- EIO, (reg + 1) % 256, evs ++ [Ev.write I2CM_CONTROL0 0x01])
    | .ack =>
      let r := writeLoop s ((reg + 1) % 256) rest
      (r.1, r.2.1, evs ++ [Ev.mod 0 I2CM_WR_MASK I2CM_INTERFACE_CONTROL0] ++ r.2.2)

/-- `dw_hdmi_qp_i2c_write` (lines 107-148): with no register address
set for this transaction, the first payload byte becomes `slave_reg`
and the remaining `length - 1` bytes are transferred. -/
def dw_hdmi_qp_i2c_write (s : Sink) (st : I2cState) (buf : List Nat) :
    Int × I2cState × List Ev :=
  if !st.is_regaddr then
    let st := { st with slave_reg := buf.headD 0 % 256, is_regaddr := true }
    let r := writeLoop s st.slave_reg buf.tail
    (r.1, { st with slave_reg := r.2.1 }, r.2.2)
  else
    let r := writeLoop s st.slave_reg buf
    (r.1, { st with slave_reg := r.2.1 }, r.2.2)

/-- One entry of the `msgs` array: `struct i2c_msg` with its address,
the `I2C_M_RD` direction flag, and the byte buffer (for reads the
buffer length gives the requested count, `len = buf.length`). -/
structure Msg where
  addr : Nat
  isRead : Bool
  buf : List Nat
  deriving DecidableEq, Repr

def defaultMsg : Msg := ⟨0, false, []⟩

/-- The per-message loop of `dw_hdmi_qp_i2c_xfer` (lines 195-212):
a one-byte message addressed to the segment-pointer address programs
the segment registers directly; otherwise the message is dispatched to
the byte-wise read or write routine, stopping at the first failure.
Returns (result, state, per-message read data, trace). -/
def xferLoop (s : Sink) (st : I2cState) : List Msg → Int × I2cState × List (List Nat) × List Ev
  | [] => (0, st, [], [])
  | m :: rest =>
    if m.addr = DDC_SEGMENT_ADDR ∧ m.buf.length = 1 then
      let st := { st with is_segment := true }
      let evs := [Ev.mod DDC_SEGMENT_ADDR I2CM_SEG_ADDR I2CM_INTERFACE_CONTROL1,
                  Ev.mod (m.buf.headD 0) I2CM_SEG_PTR I2CM_INTERFACE_CONTROL1]
      let r := xferLoop s st rest
      (r.1, r.2.1, [] :: r.2.2.1, evs ++ r.2.2.2)
    else if m.isRead then
      let r := dw_hdmi_qp_i2c_read s st m.buf.length
      if r.1 < 0 then (r.1, r.2.1, [r.2.2.1], r.2.2.2)
      else
        let r' := xferLoop s r.2.1 rest
        (r'.1, r'.2.1, r.2.2.1 :: r'.2.2.1, r.2.2.2 ++ r'.2.2.2)
    else
      let r := dw_hdmi_qp_i2c_write s st m.buf
      if r.1 < 0 then (r.1, r.2.1, [[]], r.2.2)
      else
        let r' := xferLoop s r.2.1 rest
        (r'.1, r'.2.1, [] :: r'.2.2.1, r.2.2 ++ r'.2.2.2)

structure XferOut where
  ret : Int
  outs : List (List Nat)
  st : I2cState
  trace : List Ev
  deriving Repr

/-- `dw_hdmi_qp_i2c_xfer` (lines 150-224): reject the DDC/CI address
(checked on the first message only, through the `u8` cast of `addr`)
and zero-length messages before touching hardware; then, holding the
transaction mutex, unmute the DONE/NACK interrupts, program the slave
address (rewriting a one-byte segment-selector's alias address to the
canonical sink address), reset the per-transaction flags, run the
message loop, and re-mute the interrupts before unlocking. -/
def dw_hdmi_qp_i2c_xfer (s : Sink) (st0 : I2cState) (msgs : List Msg) : XferOut :=
  let addr := (msgs.headD defaultMsg).addr % 256
  if addr = DDC_CI_ADDR then
    ⟨-EOPNOTSUPP, [], st0, []⟩
  else if msgs.any (fun m => m.buf.length == 0) then
    ⟨-EOPNOTSUPP, [], st0, []⟩
  else
    let addr := if addr = DDC_SEGMENT_ADDR ∧ (msgs.headD defaultMsg).buf.length = 1
                then DDC_ADDR else addr
    let st := { st0 with is_regaddr := false, is_segment := false }
    let r := xferLoop s st msgs
    let ret : Int := if r.1 = 0 then (msgs.length : Int) else r.1
    ⟨ret, r.2.2.1, r.2.1,
     Ev.lock ::
       (Ev.mod (I2CM_NACK_RCVD_MASK_N ||| I2CM_OP_DONE_MASK_N)
               (I2CM_NACK_RCVD_MASK_N ||| I2CM_OP_DONE_MASK_N)
               MAINUNIT_1_INT_MASK_N ::
        Ev.mod (addr <<< 5) I2CM_SLVADDR I2CM_INTERFACE_CONTROL0 ::
        r.2.2.2) ++
       [Ev.mod 0 (I2CM_OP_DONE_MASK_N ||| I2CM_NACK_RCVD_MASK_N) MAINUNIT_1_INT_MASK_N,
        Ev.unlock]⟩

/-! ## Infoframe assembly -/

/-- `hdmi_infoframe_set_checksum` (lines 240-251): zero byte 3,
accumulate all bytes of the buffer in a `u8`, and store `256 - csum`
into byte 3.  The buffer is a list of its `size` bytes. -/
def hdmi_infoframe_set_checksum (buf : List Nat) : List Nat :=
  let buf := buf.set 3 0
  let csum := buf.sum % 256
  buf.set 3 ((256 - csum) % 256)

/-- One 32-bit word of the Designware AVI packet loop
(lines 287-295): for word `i`, fold `j = 0..3` packing
`buf[i*4 + j + 3]` little-endian, breaking once `i*4 + j ≥ 14`, with
the source's redundant `val = buf[..]` followed by `val |= buf[..] << 0`
at `j = 0` kept as written. -/
def aviWord (buf : List Nat) (i : Nat) : Nat :=
  (List.range 4).foldl
    (fun val j =>
      if 14 ≤ i * 4 + j then val
      else
        (if j = 0 then buf.getD (i * 4 + j + 3) 0 else val) |||
          buf.getD (i * 4 + j + 3) 0 <<< (8 * j))
    0

/-- Result of `hdmi_config_AVI`: the final 17-byte buffer, the final
frame version, and the hardware write trace. -/
structure AviOut where
  buf : List Nat
  version : Nat
  trace : List Ev
  deriving Repr

/-- `hdmi_config_AVI` (lines 253-303), parametrized by the values the
external helpers produce: `packed` is the 17-byte standard-layout
buffer from `hdmi_avi_infoframe_pack_only`, `version0`/`length0`/
`colorspace` the corresponding fields of the packed frame, and `vic`
the driver's resolved VIC (`frame.video_code` is a `u8`, hence the
`% 256`).  For VIC ≥ 128 the version is forced to 3, colorspace bits
are rewritten into byte 4, byte 7 is rewritten to the video code, and
the checksum is recomputed; then the header word and four payload
words are written, the field-rate override cleared, and AVI + GCP
transmission enabled. -/
def hdmi_config_AVI (vic version0 length0 colorspace : Nat) (packed : List Nat) : AviOut :=
  let fv : List Nat × Nat :=
    if 128 ≤ vic then
      let b := packed.set 1 3
      let b := b.set 4 (b.getD 4 0 % 32 ||| (colorspace % 8) <<< 5)
      let b := b.set 7 (vic % 256)
      (hdmi_infoframe_set_checksum b, 3)
    else
      (packed, version0)
  let buf := fv.1
  let ver := fv.2
  { buf := buf, version := ver,
    trace :=
      Ev.write PKT_AVI_CONTENTS0 (ver <<< 8 ||| length0 <<< 16) ::
      (List.range 4).map (fun i => Ev.write (PKT_AVI_CONTENTS1 + i * 4) (aviWord buf i)) ++
      [Ev.mod 0 PKTSCHED_AVI_FIELDRATE PKTSCHED_PKT_CONFIG1,
       Ev.mod (PKTSCHED_AVI_TX_EN ||| PKTSCHED_GCP_TX_EN)
              (PKTSCHED_AVI_TX_EN ||| PKTSCHED_GCP_TX_EN) PKTSCHED_PKT_EN] }

/-- The words-and-flushes loop of `hdmi_config_drm_infoframe`
(lines 354-362): accumulate payload bytes `buffer[3 + i]` for
`i = 0..length`, flushing a register word at every fourth byte and at
the final byte. -/
def drmWords (buffer : List Nat) (length : Nat) : List Ev :=
  (List.range (length + 1)).filterMap (fun i =>
    if i % 4 = 3 ∨ i = length then
      some (Ev.write (PKT_DRMI_CONTENTS1 + i / 4 * 4)
        ((List.range (i % 4 + 1)).foldl
          (fun val j =>
            (if j = 0 then buffer.getD (3 + (i - i % 4 + j)) 0 else val) |||
              buffer.getD (3 + (i - i % 4 + j)) 0 <<< (j * 8))
          0))
    else none)

/-- The environment `dw_hdmi_qp_setup` reads beyond the register file:
the PHY init outcome, the video descriptor fields derived by the
external `dw_hdmi_prep_*` helpers, the sink capabilities, and the
externally packed infoframe data. -/
structure SetupEnv where
  phy_init : Except Int Unit
  mtmdsclock : Nat
  scdc_supported : Bool
  sink_scdc_version : Nat
  avi_version : Nat
  avi_length : Nat
  avi_colorspace : Nat
  avi_packed : List Nat
  use_drm_infoframe : Bool
  sink_eotf : Nat
  drm_frame : Option (Nat × Nat × List Nat)

/-- `hdmi_config_drm_infoframe` (lines 305-367): skip entirely without
the platform flag; otherwise first disable DRMI transmission, then
bail out if the sink advertises no EOTF or if no packed frame is
available (source metadata missing, EOTF unsupported, or packing
failed — the external metadata/packing helpers are modelled from the
spec as the optional `(version, length, buffer)` triple `drm_frame`);
otherwise write header and payload words and enable transmission. -/
def hdmi_config_drm_infoframe (env : SetupEnv) : List Ev :=
  if !env.use_drm_infoframe then []
  else
    Ev.mod 0 PKTSCHED_DRMI_TX_EN PKTSCHED_PKT_EN ::
    (if env.sink_eotf = 0 then []
     else match env.drm_frame with
       | none => []
       | some (ver, len, buffer) =>
         Ev.write PKT_DRMI_CONTENTS0 (ver <<< 8 ||| len <<< 16) ::
         drmWords buffer len ++
         [Ev.mod 0 PKTSCHED_DRMI_FIELDRATE PKTSCHED_PKT_CONFIG1,
          Ev.mod PKTSCHED_DRMI_TX_EN PKTSCHED_DRMI_TX_EN PKTSCHED_PKT_EN])

/-- `enum drm_connector_force` values relevant to `update_power`. -/
inductive Force where
  | unspecified
  | off
  | on
  | onDigital
  deriving DecidableEq, Repr

/-- The lifecycle-relevant fields of `struct dw_hdmi`. -/
structure DwHdmi where
  force : Force
  disabled : Bool
  rxsense : Bool
  bridge_is_on : Bool
  phy_enabled : Bool
  sink_is_hdmi : Bool
  vic : Nat
  deriving DecidableEq, Repr

/-- `dw_hdmi_qp_setup` (lines 369-438): initialize the PHY and abort
on failure; on success mark the PHY enabled and branch on the sink
kind.  For an HDMI sink: leave DVI mode, bypass HDCP2, branch on the
TMDS clock against the 340 MHz ceiling for SCDC/scrambler
configuration, then assemble the AVI and DRM infoframes.  For a
DVI-only sink: bypass HDCP2 and set DVI mode.
Returns (result, updated state, trace). -/
def dw_hdmi_qp_setup (h : DwHdmi) (env : SetupEnv) : Int × DwHdmi × List Ev :=
  match env.phy_init with
  | .error e => (e, h, [Ev.phyInit])
  | .ok _ =>
    let h := { h with phy_enabled := true }
    if h.sink_is_hdmi then
      let scramb :=
        if HDMI14_MAX_TMDSCLK < env.mtmdsclock then
          (if env.scdc_supported then
            [Ev.scdcReadVersion,
             Ev.scdcWriteSourceVersion (min (env.sink_scdc_version % 256) SCDC_MIN_SOURCE_VERSION),
             Ev.scdcHighTmds true, Ev.scdcScrambling true]
           else []) ++ [Ev.write SCRAMB_CONFIG0 1]
        else
          (if env.scdc_supported then
            [Ev.scdcHighTmds false, Ev.scdcScrambling false]
           else []) ++ [Ev.write SCRAMB_CONFIG0 0]
      (0, h,
       Ev.phyInit ::
       Ev.mod 0 OPMODE_DVI LINK_CONFIG0 ::
       Ev.mod HDCP2_BYPASS HDCP2_BYPASS HDCP2LOGIC_CONFIG0 ::
       scramb ++
       (hdmi_config_AVI h.vic env.avi_version env.avi_length
          env.avi_colorspace env.avi_packed).trace ++
       hdmi_config_drm_infoframe env)
    else
      (0, h,
       [Ev.phyInit,
        Ev.mod HDCP2_BYPASS HDCP2_BYPASS HDCP2LOGIC_CONFIG0,
        Ev.mod OPMODE_DVI OPMODE_DVI LINK_CONFIG0])

/-- `dw_hdmi_qp_update_power` (lines 440-473): compute the effective
force (administratively disabled wins; an unspecified force follows
the latched rxsense state); an effective OFF powers the bridge down,
disabling the PHY if enabled; otherwise a bridge that is off is marked
on and the setup sequence runs — its return value is ignored. -/
def dw_hdmi_qp_update_power (h : DwHdmi) (env : SetupEnv) : DwHdmi × List Ev :=
  let force :=
    if h.disabled then Force.off
    else if h.force = Force.unspecified then
      (if h.rxsense then Force.on else Force.off)
    else h.force
  if force = Force.off then
    if h.bridge_is_on then
      let hd := if h.phy_enabled
                then ({ h with phy_enabled := false }, [Ev.phyDisable])
                else (h, ([] : List Ev))
      ({ hd.1 with bridge_is_on := false }, hd.2)
    else (h, [])
  else
    if !h.bridge_is_on then
      let h := { h with bridge_is_on := true }
      let r := dw_hdmi_qp_setup h env
      (r.2.1, r.2.2)
    else (h, [])

/-! ## Simulated sinks and trace observations (definitions used by the
theorems below) -/

/-- A sink/completion oracle that never signals completion: every
byte-level operation times out. -/
def timeoutSink : Sink :=
  ⟨fun _ => .timeout, fun _ => 0, fun _ _ => .timeout⟩

/-- A sink that acknowledges every byte-level operation and holds
register contents `d`. -/
def ackSink (d : Nat → Nat) : Sink :=
  ⟨fun _ => .ack, d, fun _ _ => .ack⟩

/-- A sink that always acknowledges and returns incrementing bytes:
register `r` holds `c + r` (truncated to a byte when read). -/
def incSink (c : Nat) : Sink :=
  ackSink (fun r => c + r)

/-- The data bytes a trace pushes through `I2CM_INTERFACE_WRDATA_0_3`,
in order. -/
def wrDataBytes (evs : List Ev) : List Nat :=
  evs.filterMap fun e =>
    match e with
    | .write r v => if r = I2CM_INTERFACE_WRDATA_0_3 then some v else none
    | _ => none

/-- The slave register addresses a trace programs into the `I2CM_ADDR`
field of `I2CM_INTERFACE_CONTROL0`, in order. -/
def addrProgs (evs : List Ev) : List Nat :=
  evs.filterMap fun e =>
    match e with
    | .mod d m r =>
      if m = I2CM_ADDR ∧ r = I2CM_INTERFACE_CONTROL0 then some (d >>> 12) else none
    | _ => none

/-- Whether processing the message list performs at least one
byte-level bus operation, given whether a register address is already
set: segment-pointer specials perform none; a read always does; a
write does unless it is the first write of the transaction and carries
only the one register-address byte. -/
def willByteOp (regaddr : Bool) : List Msg → Bool
  | [] => false
  | m :: rest =>
    if m.addr = DDC_SEGMENT_ADDR ∧ m.buf.length = 1 then willByteOp regaddr rest
    else if m.isRead then true
    else if regaddr then true
    else if 2 ≤ m.buf.length then true
    else willByteOp true rest

end DwHdmiQp

namespace DwHdmiQp

/-! ## Helper lemmas about the byte loops -/

theorem ackSink_rdResp (d : Nat → Nat) (r : Nat) : (ackSink d).rdResp r = .ack := rfl

theorem ackSink_wrResp (d : Nat → Nat) (r b : Nat) : (ackSink d).wrResp r b = .ack := rfl

theorem ackSink_rdData (d : Nat → Nat) (r : Nat) : (ackSink d).rdData r = d r := rfl

theorem timeoutSink_rdResp (r : Nat) : timeoutSink.rdResp r = .timeout := rfl

theorem timeoutSink_wrResp (r b : Nat) : timeoutSink.wrResp r b = .timeout := rfl

theorem shl12_shr12 (x : Nat) : (x <<< 12) >>> 12 = x := by
  simp [Nat.shiftLeft_eq, Nat.shiftRight_eq_div_pow]

/-- Under an always-acknowledging sink, the write byte loop succeeds,
advances the register pointer by the buffer length (mod 256), pushes
exactly the buffer through the write-data register, and programs the
consecutive auto-incremented register addresses. -/
theorem writeLoop_ack (d : Nat → Nat) (buf : List Nat) : ∀ reg, reg < 256 →
    (writeLoop (ackSink d) reg buf).1 = 0 ∧
    (writeLoop (ackSink d) reg buf).2.1 = (reg + buf.length) % 256 ∧
    wrDataBytes (writeLoop (ackSink d) reg buf).2.2 = buf ∧
    addrProgs (writeLoop (ackSink d) reg buf).2.2 =
      (List.range buf.length).map (fun i => (reg + i) % 256) := by
  induction buf with
  | nil =>
    intro reg hreg
    simp [writeLoop, wrDataBytes, addrProgs, Nat.mod_eq_of_lt hreg]
  | cons b bs ih =>
    intro reg hreg
    obtain ⟨ih1, ih2, ih3, ih4⟩ := ih ((reg + 1) % 256) (Nat.mod_lt _ (by norm_num))
    simp only [writeLoop, ackSink_wrResp]
    refine ⟨ih1, ?_, ?_, ?_⟩
    · rw [ih2]; simp only [List.length_cons]; omega
    · simp only [wrDataBytes, List.filterMap_append, List.filterMap_cons,
        List.filterMap_nil, if_pos rfl] at ih3 ⊢
      simp only [I2CM_INTERFACE_WRDATA_0_3, I2CM_CONTROL0] at ih3 ⊢
      norm_num
      exact ih3
    · simp only [addrProgs, List.filterMap_append, List.filterMap_cons,
        List.filterMap_nil] at ih4 ⊢
      simp only [I2CM_ADDR, I2CM_WR_MASK, I2CM_INTERFACE_CONTROL0] at ih4 ⊢
      norm_num [shl12_shr12] at ih4 ⊢
      rw [ih4, List.range_succ_eq_map]
      simp only [List.map_cons, List.map_map, List.length_cons]
      congr 1
      · omega
      · refine List.map_congr_left ?_
        intro i _
        simp only [Function.comp]
        omega

/-- Under an always-acknowledging sink, the read byte loop succeeds,
advances the register pointer by the byte count (mod 256), returns the
sink's register contents (masked to bytes) at the consecutive
auto-incremented addresses, and pushes no write data. -/
theorem readLoop_ack (d : Nat → Nat) (len : Nat) : ∀ reg, reg < 256 →
    (readLoop (ackSink d) reg len).1 = 0 ∧
    (readLoop (ackSink d) reg len).2.1 = (reg + len) % 256 ∧
    (readLoop (ackSink d) reg len).2.2.1 =
      (List.range len).map (fun i => d ((reg + i) % 256) % 256) ∧
    wrDataBytes (readLoop (ackSink d) reg len).2.2.2 = [] ∧
    addrProgs (readLoop (ackSink d) reg len).2.2.2 =
      (List.range len).map (fun i => (reg + i) % 256) := by
  induction len with
  | zero =>
    intro reg hreg
    simp [readLoop, wrDataBytes, addrProgs, Nat.mod_eq_of_lt hreg]
  | succ n ih =>
    intro reg hreg
    obtain ⟨ih1, ih2, ih3, ih4, ih5⟩ := ih ((reg + 1) % 256) (Nat.mod_lt _ (by norm_num))
    simp only [readLoop, ackSink_rdResp, ackSink_rdData]
    refine ⟨ih1, ?_, ?_, ?_, ?_⟩
    · rw [ih2]; omega
    · rw [ih3, List.range_succ_eq_map]
      simp only [List.map_cons, List.map_map]
      congr 1
      · have h0 : (reg + 0) % 256 = reg := by omega
        rw [h0]
      · refine List.map_congr_left ?_
        intro i _
        simp only [Function.comp]
        have h2 : ((reg + 1) % 256 + i) % 256 = (reg + (i + 1)) % 256 := by omega
        rw [h2]
    · simp only [wrDataBytes, List.filterMap_append, List.filterMap_cons,
        List.filterMap_nil] at ih4 ⊢
      simp only [I2CM_INTERFACE_WRDATA_0_3, I2CM_ADDR, I2CM_WR_MASK,
        I2CM_INTERFACE_CONTROL0, I2CM_FM_READ] at ih4 ⊢
      norm_num at ih4 ⊢
      exact ih4
    · simp only [addrProgs, List.filterMap_append, List.filterMap_cons,
        List.filterMap_nil] at ih5 ⊢
      simp only [I2CM_ADDR, I2CM_WR_MASK, I2CM_INTERFACE_CONTROL0] at ih5 ⊢
      norm_num [shl12_shr12] at ih5 ⊢
      rw [ih5, List.range_succ_eq_map]
      simp only [List.map_cons, List.map_map]
      congr 1
      · omega
      · refine List.map_congr_left ?_
        intro i _
        simp only [Function.comp]
        omega

/-- Under a never-completing sink, the message loop fails with
`-EAGAIN` and writes the software-reset value to `I2CM_CONTROL0` as
soon as any byte-level operation is attempted. -/
theorem xferLoop_timeout (msgs : List Msg) : ∀ st : I2cState,
    (∀ m ∈ msgs, m.buf.length ≠ 0) → willByteOp st.is_regaddr msgs = true →
    (xferLoop timeoutSink st msgs).1 = -EAGAIN ∧
      Ev.write I2CM_CONTROL0 0x01 ∈ (xferLoop timeoutSink st msgs).2.2.2 := by
  induction msgs with
  | nil =>
    intro st _ hw
    simp [willByteOp] at hw
  | cons m rest ih =>
    intro st hlen hw
    have hm : m.buf.length ≠ 0 := hlen m (List.mem_cons_self m rest)
    have hnil : m.buf ≠ [] := by
      intro h
      rw [h] at hm
      exact hm rfl
    have hrest : ∀ x ∈ rest, x.buf.length ≠ 0 :=
      fun x hx => hlen x (List.mem_cons_of_mem m hx)
    by_cases hseg : m.addr = DDC_SEGMENT_ADDR ∧ m.buf.length = 1
    · simp only [willByteOp, if_pos hseg] at hw
      obtain ⟨g1, g2⟩ := ih { st with is_segment := true } hrest hw
      simp only [xferLoop, if_pos hseg]
      exact ⟨g1, by simp [g2]⟩
    · by_cases hrd : m.isRead
      · obtain ⟨n, hn⟩ : ∃ n, m.buf.length = n + 1 :=
          ⟨m.buf.length - 1, by omega⟩
        rw [xferLoop, if_neg hseg, if_pos hrd]
        rw [dw_hdmi_qp_i2c_read, hn]
        simp [readLoop, timeoutSink_rdResp, EAGAIN]
      · obtain ⟨b, bs, hb⟩ := List.exists_cons_of_ne_nil hnil
        by_cases hra : st.is_regaddr
        · rw [xferLoop, if_neg hseg, if_neg (by simp [hrd])]
          rw [dw_hdmi_qp_i2c_write, hb]
          simp [hra, writeLoop, timeoutSink_wrResp, EAGAIN]
        · by_cases h2 : 2 ≤ m.buf.length
          · have hbs : bs ≠ [] := by
              intro h
              rw [hb, h] at h2
              simp at h2
            obtain ⟨c, cs, hc⟩ := List.exists_cons_of_ne_nil hbs
            have hbc : m.buf = b :: c :: cs := by rw [hb, hc]
            rw [xferLoop, if_neg hseg, if_neg (by simp [hrd])]
            rw [dw_hdmi_qp_i2c_write, hbc]
            simp [hra, writeLoop, timeoutSink_wrResp, EAGAIN]
          · have hlen1 : m.buf.length = 1 := by
              rw [hb]
              rw [hb] at h2 hm
              simp only [List.length_cons] at h2 hm ⊢
              omega
            obtain ⟨a, ha⟩ := List.length_eq_one.mp hlen1
            simp only [willByteOp, if_neg hseg, hrd, Bool.false_eq_true,
              if_false, if_neg hra, if_neg h2] at hw
            rw [xferLoop, if_neg hseg, if_neg (by simp [hrd])]
            rw [dw_hdmi_qp_i2c_write, ha]
            have hra' : st.is_regaddr = false := by
              cases hst : st.is_regaddr
              · rfl
              · exact absurd hst hra
            simp only [hra', Bool.not_false, if_pos rfl, List.headD_cons,
              List.tail_cons, writeLoop, if_true]
            obtain ⟨g1, g2⟩ := ih ⟨a % 256, true, st.is_segment⟩ hrest (by simpa using hw)
            norm_num
            exact ⟨g1, g2⟩

/-! ## Claims -/

/-- Claim C6: for every byte buffer fed to the AVI checksum function,
after checksum insertion the sum of all bytes of the buffer is
congruent to 0 modulo 256.  (The checksum lives at byte 3, so the
buffer must reach it.) -/
theorem checksum_sum_zero (buf : List Nat) (h : 4 ≤ buf.length) :
    (hdmi_infoframe_set_checksum buf).sum % 256 = 0 := by
  match buf, h with
  | a :: b :: c :: d :: xs, _ =>
    simp only [hdmi_infoframe_set_checksum, List.set]
    simp only [List.sum_cons]
    omega

/-- Witness for `checksum_sum_zero` at a concrete buffer. -/
theorem checksum_sum_zero_witness :
    4 ≤ ([10, 20, 30, 99, 40] : List Nat).length ∧
      (hdmi_infoframe_set_checksum [10, 20, 30, 99, 40]).sum % 256 = 0 :=
  ⟨by decide, checksum_sum_zero [10, 20, 30, 99, 40] (by decide)⟩

/-- Claim C2, counterexample: with frame version 2 and length 13 (the
standard AVI infoframe), the first hardware word written to
`PKT_AVI_CONTENTS0` is `(version <<< 8) ||| (length <<< 16)` = 0xd0200,
which differs from the claimed `version ||| (length <<< 16)` =
0xd0002. -/
theorem avi_first_word_claim_false :
    (hdmi_config_AVI 0 2 13 0 (List.replicate 17 0)).trace.head? =
        some (Ev.write PKT_AVI_CONTENTS0 0xd0200) ∧
      (0xd0200 : Nat) ≠ 2 ||| 13 <<< 16 := by
  constructor
  · rfl
  · decide

/-- Claim C7: for every packed 17-byte AVI buffer and every resolved
VIC ≥ 128 (a `u8` video code, hence < 256), the buffer produced by
`hdmi_config_AVI` has version byte `buf[1] = 3`, byte 7 equal to the
VIC, and checksum byte 3 equal to 256 minus the sum of all other bytes
(byte 3 taken as zero), modulo 256. -/
theorem avi_vic_ge128_fields (packed : List Nat) (vic v0 len0 cs : Nat)
    (hlen : packed.length = 17) (h1 : 128 ≤ vic) (h2 : vic < 256) :
    ((hdmi_config_AVI vic v0 len0 cs packed).buf.getD 1 0 = 3 ∧
     (hdmi_config_AVI vic v0 len0 cs packed).buf.getD 7 0 = vic) ∧
    (hdmi_config_AVI vic v0 len0 cs packed).buf.getD 3 0 =
      (256 - ((hdmi_config_AVI vic v0 len0 cs packed).buf.set 3 0).sum % 256) % 256 := by
  match packed, hlen with
  | [a0,a1,a2,a3,a4,a5,a6,a7,a8,a9,a10,a11,a12,a13,a14,a15,a16], _ =>
    simp only [hdmi_config_AVI, if_pos h1, hdmi_infoframe_set_checksum, List.set,
      List.getD, List.get?, List.getD_cons_succ, List.getD_cons_zero, List.sum_cons,
      Option.getD_some, List.sum_nil]
    exact ⟨⟨trivial, Nat.mod_eq_of_lt h2⟩, trivial⟩

/-- Witness for `avi_vic_ge128_fields` at a concrete packed buffer and
VIC 200. -/
theorem avi_vic_ge128_fields_witness :
    (List.replicate 17 7 : List Nat).length = 17 ∧ 128 ≤ 200 ∧ 200 < 256 ∧
      (hdmi_config_AVI 200 2 13 5 (List.replicate 17 7)).buf.getD 1 0 = 3 ∧
      (hdmi_config_AVI 200 2 13 5 (List.replicate 17 7)).buf.getD 7 0 = 200 :=
  ⟨by decide, by decide, by decide,
   (avi_vic_ge128_fields (List.replicate 17 7) 200 2 13 5
      (by decide) (by decide) (by decide)).1.1,
   (avi_vic_ge128_fields (List.replicate 17 7) 200 2 13 5
      (by decide) (by decide) (by decide)).1.2⟩

/-- Claim C5: in `dw_hdmi_qp_setup` with an HDMI-capable, SCDC-capable
sink and a successful PHY init, a TMDS clock above 340,000,000 Hz makes
the setup write 1 to `SCRAMB_CONFIG0` and request high-TMDS-clock-ratio
and scrambling enabled at the sink, while a TMDS clock at or below the
ceiling makes it write 0 and request both disabled. -/
theorem setup_scdc_scrambler_config (h : DwHdmi) (env : SetupEnv)
    (hh : h.sink_is_hdmi = true) (hs : env.scdc_supported = true)
    (hp : env.phy_init = .ok ()) :
    (HDMI14_MAX_TMDSCLK < env.mtmdsclock →
       Ev.write SCRAMB_CONFIG0 1 ∈ (dw_hdmi_qp_setup h env).2.2 ∧
       Ev.scdcHighTmds true ∈ (dw_hdmi_qp_setup h env).2.2 ∧
       Ev.scdcScrambling true ∈ (dw_hdmi_qp_setup h env).2.2) ∧
    (env.mtmdsclock ≤ HDMI14_MAX_TMDSCLK →
       Ev.write SCRAMB_CONFIG0 0 ∈ (dw_hdmi_qp_setup h env).2.2 ∧
       Ev.scdcHighTmds false ∈ (dw_hdmi_qp_setup h env).2.2 ∧
       Ev.scdcScrambling false ∈ (dw_hdmi_qp_setup h env).2.2) := by
  constructor
  · intro hc
    simp [dw_hdmi_qp_setup, hp, hh, hs, hc]
  · intro hc
    simp [dw_hdmi_qp_setup, hp, hh, hs, Nat.not_lt.mpr hc]

/-- Witness for `setup_scdc_scrambler_config` at a concrete state and
environment (high-clock branch at 600 MHz). -/
theorem setup_scdc_scrambler_config_witness :
    Ev.write SCRAMB_CONFIG0 1 ∈
      (dw_hdmi_qp_setup
        ⟨.unspecified, false, true, false, false, true, 4⟩
        ⟨.ok (), 600000000, true, 1, 2, 13, 0, List.replicate 17 0,
         false, 0, none⟩).2.2 :=
  ((setup_scdc_scrambler_config
      ⟨.unspecified, false, true, false, false, true, 4⟩
      ⟨.ok (), 600000000, true, 1, 2, 13, 0, List.replicate 17 0,
       false, 0, none⟩
      rfl rfl rfl).1 (by norm_num [HDMI14_MAX_TMDSCLK])).1

/-- Claim C3, counterexample: with the bridge administratively enabled,
no explicit force, rxsense latched, the bridge currently off and the
PHY init failing with error -5, `dw_hdmi_qp_update_power` triggers the
setup sequence — which does fail — yet leaves the bridge marked on
(`bridge_is_on = true`), contradicting "the bridge is not left marked
on/enabled". -/
theorem phy_failure_bridge_marked_on :
    (dw_hdmi_qp_setup
        ⟨.unspecified, false, true, true, false, true, 4⟩
        ⟨.error (-5), 0, false, 0, 2, 13, 0, List.replicate 17 0,
         false, 0, none⟩).1 = -5 ∧
      (dw_hdmi_qp_update_power
        ⟨.unspecified, false, true, false, false, true, 4⟩
        ⟨.error (-5), 0, false, 0, 2, 13, 0, List.replicate 17 0,
         false, 0, none⟩).1.bridge_is_on = true := by
  constructor
  · rfl
  · rfl

/-- Claim C3, amended: if PHY initialization fails during the setup
sequence, setup aborts immediately (no hardware access beyond the PHY
init attempt) and propagates the error, leaving the driver state — in
particular `phy_enabled` — unchanged; however, `dw_hdmi_qp_update_power`
marks the bridge on (`bridge_is_on := true`) before invoking setup and
ignores its return value, so the bridge is left marked on despite the
failure. -/
theorem phy_failure_propagates_bridge_left_on (h : DwHdmi) (env : SetupEnv)
    (e : Int) (hp : env.phy_init = .error e) :
    (dw_hdmi_qp_setup h env).1 = e ∧
      (dw_hdmi_qp_setup h env).2.1 = h ∧
      (dw_hdmi_qp_setup h env).2.2 = [Ev.phyInit] ∧
      (h.disabled = false → h.force = .unspecified → h.rxsense = true →
        h.bridge_is_on = false →
        (dw_hdmi_qp_update_power h env).1.bridge_is_on = true) := by
  refine ⟨?_, ?_, ?_, ?_⟩
  · simp [dw_hdmi_qp_setup, hp]
  · simp [dw_hdmi_qp_setup, hp]
  · simp [dw_hdmi_qp_setup, hp]
  · intro h1 h2 h3 h4
    simp [dw_hdmi_qp_update_power, dw_hdmi_qp_setup, hp, h1, h2, h3, h4]

/-- Witness for `phy_failure_propagates_bridge_left_on` at a concrete
state and environment. -/
theorem phy_failure_propagates_bridge_left_on_witness :
    (dw_hdmi_qp_setup
        ⟨.unspecified, false, true, false, false, true, 4⟩
        ⟨.error (-5), 0, false, 0, 2, 13, 0, List.replicate 17 0,
         false, 0, none⟩).1 = -5 ∧
      (dw_hdmi_qp_update_power
        ⟨.unspecified, false, true, false, false, true, 4⟩
        ⟨.error (-5), 0, false, 0, 2, 13, 0, List.replicate 17 0,
         false, 0, none⟩).1.bridge_is_on = true := by
  have h := phy_failure_propagates_bridge_left_on
    ⟨.unspecified, false, true, false, false, true, 4⟩
    ⟨.error (-5), 0, false, 0, 2, 13, 0, List.replicate 17 0,
     false, 0, none⟩ (-5) rfl
  exact ⟨h.1, h.2.2.2 rfl rfl rfl rfl⟩

/-- Claim C1, counterexample: the claimed scenario addresses both
messages to 0x37, which is the reserved DDC/CI address
(`DDC_CI_ADDR`), so `dw_hdmi_qp_i2c_xfer` rejects the transfer with
`-EOPNOTSUPP` instead of completing 2 messages. -/
theorem xfer_two_message_ci_addr_fails :
    (dw_hdmi_qp_i2c_xfer (incSink 0) ⟨0, false, false⟩
        [⟨0x37, false, [0x00]⟩, ⟨0x37, true, [0,0,0,0,0,0,0,0]⟩]).ret = -EOPNOTSUPP ∧
      (-EOPNOTSUPP : Int) ≠ 2 := by
  constructor
  · rfl
  · decide

/-- Claim C1, amended: the same two-message transfer addressed to a
non-reserved sink address (the canonical DDC address 0x50) against a
simulated sink that always acknowledges and returns incrementing bytes
returns 2 messages completed, and the read buffer holds 8 incrementing
byte values starting from the sink's register-0 content `c`. -/
theorem xfer_two_message_incrementing_read (c : Nat) (st0 : I2cState) :
    (dw_hdmi_qp_i2c_xfer (incSink c) st0
        [⟨DDC_ADDR, false, [0x00]⟩, ⟨DDC_ADDR, true, [0,0,0,0,0,0,0,0]⟩]).ret = 2 ∧
    (dw_hdmi_qp_i2c_xfer (incSink c) st0
        [⟨DDC_ADDR, false, [0x00]⟩, ⟨DDC_ADDR, true, [0,0,0,0,0,0,0,0]⟩]).outs =
      [[], [c % 256, (c+1) % 256, (c+2) % 256, (c+3) % 256,
            (c+4) % 256, (c+5) % 256, (c+6) % 256, (c+7) % 256]] := by
  simp [dw_hdmi_qp_i2c_xfer, xferLoop, dw_hdmi_qp_i2c_read, dw_hdmi_qp_i2c_write,
    readLoop, writeLoop, incSink, ackSink, defaultMsg, DDC_ADDR, DDC_CI_ADDR,
    DDC_SEGMENT_ADDR]

/-- Claim C4, counterexample: a transfer whose second message is
addressed to the DDC/CI address 0x37 (first message addressed
elsewhere) is not rejected: it completes with 2 messages and performs
hardware accesses, because `dw_hdmi_qp_i2c_xfer` checks only
`msgs[0].addr` against `DDC_CI_ADDR`. -/
theorem xfer_mid_ci_not_rejected :
    (dw_hdmi_qp_i2c_xfer (incSink 0) ⟨0, false, false⟩
        [⟨0x50, false, [0x00]⟩, ⟨0x37, true, [0, 0]⟩]).ret = 2 ∧
      (2 : Int) ≠ -EOPNOTSUPP ∧
      (dw_hdmi_qp_i2c_xfer (incSink 0) ⟨0, false, false⟩
        [⟨0x50, false, [0x00]⟩, ⟨0x37, true, [0, 0]⟩]).trace ≠ [] := by
  refine ⟨rfl, by decide, ?_⟩
  decide

/-- Claim C4, amended: for every transfer whose FIRST message is
addressed (through the `u8` cast) to the reserved DDC/CI address 0x37,
`dw_hdmi_qp_i2c_xfer` fails with `-EOPNOTSUPP` before any hardware
access (empty trace), regardless of message count. -/
theorem xfer_first_msg_ci_rejected (s : Sink) (st : I2cState) (msgs : List Msg)
    (h : (msgs.headD defaultMsg).addr % 256 = DDC_CI_ADDR) :
    (dw_hdmi_qp_i2c_xfer s st msgs).ret = -EOPNOTSUPP ∧
      (dw_hdmi_qp_i2c_xfer s st msgs).trace = [] := by
  simp only [List.headD_eq_head?_getD] at h
  simp [dw_hdmi_qp_i2c_xfer, h]

/-- Witness for `xfer_first_msg_ci_rejected` at a concrete two-message
transfer. -/
theorem xfer_first_msg_ci_rejected_witness :
    (([⟨0x37, true, [0]⟩, ⟨0x50, true, [0]⟩] : List Msg).headD defaultMsg).addr % 256 =
        DDC_CI_ADDR ∧
      (dw_hdmi_qp_i2c_xfer (incSink 0) ⟨0, false, false⟩
        [⟨0x37, true, [0]⟩, ⟨0x50, true, [0]⟩]).ret = -EOPNOTSUPP :=
  ⟨by decide,
   (xfer_first_msg_ci_rejected (incSink 0) ⟨0, false, false⟩
      [⟨0x37, true, [0]⟩, ⟨0x50, true, [0]⟩] (by decide)).1⟩

/-- Claim C9: every invocation of `dw_hdmi_qp_i2c_xfer` that passes the
precondition checks produces, on every exit path, a trace that takes
the mutex, unmutes the DONE/NACK interrupt mask bits as its first
hardware access, and ends by clearing those mask bits in
`MAINUNIT_1_INT_MASK_N` and releasing the mutex — so the two
interrupts are unmasked only while the transfer is in progress. -/
theorem xfer_masks_and_unlocks_on_exit (s : Sink) (st : I2cState) (msgs : List Msg)
    (h1 : (msgs.headD defaultMsg).addr % 256 ≠ DDC_CI_ADDR)
    (h2 : msgs.any (fun m => m.buf.length == 0) = false) :
    ∃ mid,
      (dw_hdmi_qp_i2c_xfer s st msgs).trace =
        Ev.lock ::
          Ev.mod (I2CM_NACK_RCVD_MASK_N ||| I2CM_OP_DONE_MASK_N)
                 (I2CM_NACK_RCVD_MASK_N ||| I2CM_OP_DONE_MASK_N)
                 MAINUNIT_1_INT_MASK_N ::
          mid ++
          [Ev.mod 0 (I2CM_OP_DONE_MASK_N ||| I2CM_NACK_RCVD_MASK_N) MAINUNIT_1_INT_MASK_N,
           Ev.unlock] := by
  simp only [List.headD_eq_head?_getD] at h1
  refine ⟨Ev.mod
      ((if (msgs.headD defaultMsg).addr % 256 = DDC_SEGMENT_ADDR ∧
            (msgs.headD defaultMsg).buf.length = 1
        then DDC_ADDR else (msgs.headD defaultMsg).addr % 256) <<< 5)
      I2CM_SLVADDR I2CM_INTERFACE_CONTROL0 ::
    (xferLoop s ⟨st.slave_reg, false, false⟩ msgs).2.2.2, ?_⟩
  simp [dw_hdmi_qp_i2c_xfer, h1, h2]

/-- Witness for `xfer_masks_and_unlocks_on_exit` at a concrete
single-read transfer. -/
theorem xfer_masks_and_unlocks_on_exit_witness :
    (([⟨0x50, true, [0]⟩] : List Msg).headD defaultMsg).addr % 256 ≠ DDC_CI_ADDR ∧
      ([⟨0x50, true, [0]⟩] : List Msg).any (fun m => m.buf.length == 0) = false ∧
      ∃ mid,
        (dw_hdmi_qp_i2c_xfer (incSink 0) ⟨0, false, false⟩ [⟨0x50, true, [0]⟩]).trace =
          Ev.lock ::
            Ev.mod (I2CM_NACK_RCVD_MASK_N ||| I2CM_OP_DONE_MASK_N)
                   (I2CM_NACK_RCVD_MASK_N ||| I2CM_OP_DONE_MASK_N)
                   MAINUNIT_1_INT_MASK_N ::
            mid ++
            [Ev.mod 0 (I2CM_OP_DONE_MASK_N ||| I2CM_NACK_RCVD_MASK_N) MAINUNIT_1_INT_MASK_N,
             Ev.unlock] :=
  ⟨by decide, by decide,
   xfer_masks_and_unlocks_on_exit (incSink 0) ⟨0, false, false⟩
     [⟨0x50, true, [0]⟩] (by decide) (by decide)⟩

/-- Claim C8: if no completion is ever signaled (a never-completing
sink), any transfer that passes the precondition checks and attempts a
byte-level operation fails as a whole with the retryable `-EAGAIN`,
and the command register `I2CM_CONTROL0` is written to its
software-reset value 0x01 before returning. -/
theorem timeout_fails_transfer_resets_control (st : I2cState) (msgs : List Msg)
    (h1 : (msgs.headD defaultMsg).addr % 256 ≠ DDC_CI_ADDR)
    (h2 : ∀ m ∈ msgs, m.buf.length ≠ 0)
    (h3 : willByteOp false msgs = true) :
    (dw_hdmi_qp_i2c_xfer timeoutSink st msgs).ret = -EAGAIN ∧
      Ev.write I2CM_CONTROL0 0x01 ∈ (dw_hdmi_qp_i2c_xfer timeoutSink st msgs).trace := by
  have h2' : msgs.any (fun m => m.buf.length == 0) = false := by
    rw [List.any_eq_false]
    intro m hm
    simpa using h2 m hm
  obtain ⟨g1, g2⟩ := xferLoop_timeout msgs ⟨st.slave_reg, false, false⟩ h2 (by simpa using h3)
  simp only [dw_hdmi_qp_i2c_xfer, h2', Bool.false_eq_true, if_false]
  rw [if_neg h1]
  constructor
  · simp [g1, EAGAIN]
  · simp [g2]

/-- Witness for `timeout_fails_transfer_resets_control` at a concrete
single-read transfer. -/
theorem timeout_fails_transfer_resets_control_witness :
    (([⟨0x50, true, [0]⟩] : List Msg).headD defaultMsg).addr % 256 ≠ DDC_CI_ADDR ∧
      (∀ m ∈ ([⟨0x50, true, [0]⟩] : List Msg), m.buf.length ≠ 0) ∧
      willByteOp false [⟨0x50, true, [0]⟩] = true ∧
      (dw_hdmi_qp_i2c_xfer timeoutSink ⟨0, false, false⟩ [⟨0x50, true, [0]⟩]).ret = -EAGAIN :=
  ⟨by decide, by decide, by decide,
   (timeout_fails_transfer_resets_control ⟨0, false, false⟩ [⟨0x50, true, [0]⟩]
      (by decide) (by decide) (by decide)).1⟩

/-- Claim C10: within a transfer (under an always-acknowledging sink,
starting from a byte-valued register pointer `sr`), the register
address is consumed at most once.  A first write (flag not yet set)
takes its head payload byte as the register address, transfers only
the tail as data, and sets the flag; a first read defaults the pointer
to 0 and sets the flag; with the flag set, a write transfers every
payload byte as data and a read reads from the current pointer — both
continuing at the auto-incremented pointer and interpreting no payload
byte as a register address. -/
theorem regaddr_consumed_once (d : Nat → Nat) (sr : Nat) (hsr : sr < 256)
    (iseg : Bool) (buf : List Nat) (len : Nat) :
    ((dw_hdmi_qp_i2c_write (ackSink d) ⟨sr, false, iseg⟩ buf).2.1.is_regaddr = true ∧
     wrDataBytes (dw_hdmi_qp_i2c_write (ackSink d) ⟨sr, false, iseg⟩ buf).2.2 = buf.tail ∧
     addrProgs (dw_hdmi_qp_i2c_write (ackSink d) ⟨sr, false, iseg⟩ buf).2.2 =
       (List.range buf.tail.length).map (fun i => (buf.headD 0 % 256 + i) % 256) ∧
     (dw_hdmi_qp_i2c_write (ackSink d) ⟨sr, false, iseg⟩ buf).2.1.slave_reg =
       (buf.headD 0 % 256 + buf.tail.length) % 256) ∧
    ((dw_hdmi_qp_i2c_read (ackSink d) ⟨sr, false, iseg⟩ len).2.1.is_regaddr = true ∧
     addrProgs (dw_hdmi_qp_i2c_read (ackSink d) ⟨sr, false, iseg⟩ len).2.2.2 =
       (List.range len).map (fun i => i % 256) ∧
     (dw_hdmi_qp_i2c_read (ackSink d) ⟨sr, false, iseg⟩ len).2.1.slave_reg = len % 256) ∧
    ((dw_hdmi_qp_i2c_write (ackSink d) ⟨sr, true, iseg⟩ buf).2.1.is_regaddr = true ∧
     wrDataBytes (dw_hdmi_qp_i2c_write (ackSink d) ⟨sr, true, iseg⟩ buf).2.2 = buf ∧
     addrProgs (dw_hdmi_qp_i2c_write (ackSink d) ⟨sr, true, iseg⟩ buf).2.2 =
       (List.range buf.length).map (fun i => (sr + i) % 256) ∧
     (dw_hdmi_qp_i2c_write (ackSink d) ⟨sr, true, iseg⟩ buf).2.1.slave_reg =
       (sr + buf.length) % 256) ∧
    ((dw_hdmi_qp_i2c_read (ackSink d) ⟨sr, true, iseg⟩ len).2.1.is_regaddr = true ∧
     addrProgs (dw_hdmi_qp_i2c_read (ackSink d) ⟨sr, true, iseg⟩ len).2.2.2 =
       (List.range len).map (fun i => (sr + i) % 256) ∧
     (dw_hdmi_qp_i2c_read (ackSink d) ⟨sr, true, iseg⟩ len).2.1.slave_reg =
       (sr + len) % 256) := by
  obtain ⟨w1a, w1b, w1c, w1d⟩ :=
    writeLoop_ack d buf.tail (buf.headD 0 % 256) (Nat.mod_lt _ (by norm_num))
  obtain ⟨w2a, w2b, w2c, w2d⟩ := writeLoop_ack d buf sr hsr
  obtain ⟨r1a, r1b, r1c, r1d, r1e⟩ := readLoop_ack d len 0 (by norm_num)
  obtain ⟨r2a, r2b, r2c, r2d, r2e⟩ := readLoop_ack d len sr hsr
  refine ⟨⟨?_, ?_, ?_, ?_⟩, ⟨?_, ?_, ?_⟩, ⟨?_, ?_, ?_, ?_⟩, ⟨?_, ?_, ?_⟩⟩
  · simp [dw_hdmi_qp_i2c_write]
  · simpa [dw_hdmi_qp_i2c_write] using w1c
  · simpa [dw_hdmi_qp_i2c_write] using w1d
  · simpa [dw_hdmi_qp_i2c_write] using w1b
  · simp [dw_hdmi_qp_i2c_read]
  · simpa [dw_hdmi_qp_i2c_read] using r1e
  · simpa [dw_hdmi_qp_i2c_read] using r1b
  · simp [dw_hdmi_qp_i2c_write]
  · simpa [dw_hdmi_qp_i2c_write] using w2c
  · simpa [dw_hdmi_qp_i2c_write] using w2d
  · simpa [dw_hdmi_qp_i2c_write] using w2b
  · simp [dw_hdmi_qp_i2c_read]
  · simpa [dw_hdmi_qp_i2c_read] using r2e
  · simpa [dw_hdmi_qp_i2c_read] using r2b

/-- Witness for `regaddr_consumed_once` at a concrete buffer: the
first write consumes its head byte 9 as the register address and
transfers `[1, 2]`, while a subsequent write transfers all of
`[9, 1, 2]` as data. -/
theorem regaddr_consumed_once_witness :
    (5 : Nat) < 256 ∧
      wrDataBytes (dw_hdmi_qp_i2c_write (ackSink (fun r => r))
        ⟨5, false, false⟩ [9, 1, 2]).2.2 = [1, 2] ∧
      wrDataBytes (dw_hdmi_qp_i2c_write (ackSink (fun r => r))
        ⟨5, true, false⟩ [9, 1, 2]).2.2 = [9, 1, 2] :=
  ⟨by decide,
   (regaddr_consumed_once (fun r => r) 5 (by decide) false [9, 1, 2] 2).1.2.1,
   (regaddr_consumed_once (fun r => r) 5 (by decide) false [9, 1, 2] 2).2.2.1.2.1⟩

/-- Claim C2, amended: the first hardware word written (to
`PKT_AVI_CONTENTS0`) equals `(version <<< 8) ||| (length <<< 16)`,
i.e. the frame version shifted left by 8 (not in the low bits) and the
frame length shifted left by 16, where the version is the one forced
to 3 for VIC ≥ 128. -/
theorem avi_first_word_layout (vic v0 len0 cs : Nat) (packed : List Nat) :
    (hdmi_config_AVI vic v0 len0 cs packed).trace.head? =
      some (Ev.write PKT_AVI_CONTENTS0
        ((if 128 ≤ vic then 3 else v0) <<< 8 ||| len0 <<< 16)) := by
  by_cases h : 128 ≤ vic <;> simp [hdmi_config_AVI, h]

end DwHdmiQp
